import Mathlib

/-!
Verification of the rtetempo background-synchronization engine and its
tempo-rules module against the natural-language specification.

Sources embedded here:
- custom_components/rtetempo/tempo_rules.py (present in the repository):
  Easter computation, French-holiday detection, and the forecast
  color-adjustment rules.
- the api_worker module (error classification, adaptive wait computation,
  fetch retry policy, ingest): its source file is not part of the provided
  tree, so those operations are modelled from the specification, as marked
  in their doc comments.

Conventions: Python integer division and modulo on nonnegative divisors
coincide with Lean Int division and modulo (both are floor-style for a
positive divisor), so Int `/` and `%` are used throughout. Probabilities
(Python floats constrained to simple decimal arithmetic) are modelled as
rationals. Zoned datetimes are modelled as a civil day index plus a
minute-of-day, in the single fixed timezone the program works in.
-/

/-- Civil calendar date, mirroring the fields of a Python `datetime.date`
(the embedding does not restrict the ranges; all dates the program builds
are passed through the arithmetic below). -/
structure CivilDate where
  year : Int
  month : Int
  day : Int
deriving DecidableEq, Repr

/-- Day index of a civil date (days since 1970-01-01, negative before),
standard civil-from-days calendar arithmetic; embeds the day arithmetic of
Python `datetime.date`. -/
def daysFromCivil (dt : CivilDate) : Int :=
  let y := if dt.month ≤ 2 then dt.year - 1 else dt.year
  let era := y / 400
  let yoe := y - era * 400
  let mp := (dt.month + 9) % 12
  let doy := (153 * mp + 2) / 5 + dt.day - 1
  let doe := yoe * 365 + yoe / 4 - yoe / 100 + doy
  era * 146097 + doe - 719468

/-- Inverse of `daysFromCivil`: the civil date of a day index. -/
def civilFromDays (z : Int) : CivilDate :=
  let z2 := z + 719468
  let era := z2 / 146097
  let doe := z2 - era * 146097
  let yoe := (doe - doe / 1460 + doe / 36524 - doe / 146096) / 365
  let y := yoe + era * 400
  let doy := doe - (365 * yoe + yoe / 4 - yoe / 100)
  let mp := (5 * doy + 2) / 153
  let d := doy - (153 * mp + 2) / 5 + 1
  let m := if mp < 10 then mp + 3 else mp - 9
  ⟨if m ≤ 2 then y + 1 else y, m, d⟩

/-- Date plus a number of days; embeds `date + datetime.timedelta(days=n)`. -/
def addDays (dt : CivilDate) (n : Int) : CivilDate :=
  civilFromDays (daysFromCivil dt + n)

/-- Weekday of a date with Monday = 0 .. Sunday = 6; embeds Python
`date.weekday()` (1970-01-01 was a Thursday, hence the offset 3). -/
def weekday (dt : CivilDate) : Int :=
  (daysFromCivil dt + 3) % 7

/-- Fixed French holidays as (month, day) pairs; embeds
`tempo_rules.FIXED_HOLIDAYS`. -/
def FIXED_HOLIDAYS : List (Int × Int) :=
  [(1, 1), (5, 1), (5, 8), (7, 14), (8, 15), (11, 1), (11, 11), (12, 25)]

/-- Date of Easter Sunday by the Butcher-Meeus algorithm; embeds
`tempo_rules.compute_easter`. All Python divisions and modulos in the
source have positive divisors and therefore coincide with Int `/` and `%`
here for every integer input. -/
def compute_easter (year : Int) : CivilDate :=
  let a := year % 19
  let b := year / 100
  let c := year % 100
  let d := b / 4
  let e := b % 4
  let f := (b + 8) / 25
  let g := (b - f + 1) / 3
  let h := (19 * a + b - d - g + 15) % 30
  let i := c / 4
  let k := c % 4
  let l := (32 + 2 * e + 2 * i - h - k) % 7
  let m := (a + 11 * h + 22 * l) / 451
  let month := (h + l - 7 * m + 114) / 31
  let day := (h + l - 7 * m + 114) % 31 + 1
  ⟨year, month, day⟩

/-- Movable French holidays depending on Easter; embeds
`tempo_rules.get_movable_holidays`. -/
def get_movable_holidays (year : Int) : List CivilDate :=
  let easter := compute_easter year
  [addDays easter 1, addDays easter 39, addDays easter 50]

/-- French public-holiday test (fixed plus movable holidays); embeds
`tempo_rules.is_french_holiday`. -/
def is_french_holiday (date : CivilDate) : Bool :=
  decide ((date.month, date.day) ∈ FIXED_HOLIDAYS)
    || decide (date ∈ get_movable_holidays date.year)

/-- Forecast record, mirroring the fields of `forecast.ForecastDay` as used
by `tempo_rules` (date, color string, optional probability, optional
indicator, source). -/
structure ForecastDay where
  date : CivilDate
  color : String
  probability : Option ℚ
  indicator : Option String
  source : String
deriving DecidableEq, Repr

/-- Adjust one forecast day by the Tempo rules; embeds
`tempo_rules.adjust_forecast_day` (holiday rule first, then Sunday, then
Saturday-red conversion, else a copy with indicator cleared). -/
def adjust_forecast_day (forecast : ForecastDay) : ForecastDay :=
  let date := forecast.date
  let wd := weekday date
  if is_french_holiday date then
    ⟨date, "bleu", none, some "F", forecast.source⟩
  else if wd = 6 then
    ⟨date, "bleu", none, some "D", forecast.source⟩
  else if wd = 5 ∧ forecast.color = "rouge" then
    let originalProb := forecast.probability.getD 0
    let newProbability :=
      if originalProb > 6 / 10 then (1 : ℚ) else min (originalProb + 1 / 10) 1
    ⟨date, "blanc", some newProbability, none, forecast.source⟩
  else
    ⟨forecast.date, forecast.color, forecast.probability, none, forecast.source⟩

/-- Apply the Tempo rules to every forecast in the list, in order; embeds
the list comprehension in `tempo_rules.apply_tempo_rules`. -/
def apply_tempo_rules : List ForecastDay → List ForecastDay
  | [] => []
  | f :: rest => adjust_forecast_day f :: apply_tempo_rules rest

/-- Length of a month of the Gregorian calendar (March and April, the only
months Easter can fall in, do not depend on leap years; the other lengths
are listed for completeness of the validity notion used by
`datetime.date`). -/
def daysInMonth (year : Int) (month : Int) : Int :=
  if month = 2 then
    if year % 4 = 0 ∧ (year % 100 ≠ 0 ∨ year % 400 = 0) then 29 else 28
  else if month = 4 ∨ month = 6 ∨ month = 9 ∨ month = 11 then 30
  else 31

/-- Probability field that is either absent or already a valid probability;
hypothesis used by the amended Saturday-red statement. -/
def probOk : Option ℚ → Prop
  | none => True
  | some p => 0 ≤ p ∧ p ≤ 1

/-- Modelled from the spec: a zoned datetime in the single fixed timezone
the worker operates in, as a civil day index (days since 1970-01-01) plus
a minute-of-day. The api_worker source file is missing from the provided
tree (only its tests are present), so the datetime values manipulated by
sections 4.4 and 4.5 of the spec are modelled by this type. -/
structure LocalDT where
  day : Int
  minute : Nat
  hlt : minute < 1440

/-- Total minutes represented by a localized datetime. -/
def toMinutes (t : LocalDT) : Int :=
  t.day * 1440 + t.minute

/-- Add a number of minutes to a localized datetime, carrying whole days
into the day index. -/
def addMinutes (t : LocalDT) (m : Nat) : LocalDT :=
  ⟨t.day + ((t.minute + m) / 1440 : Nat), (t.minute + m) % 1440,
    Nat.mod_lt _ (by decide)⟩

/-- Modelled from the spec: the configured change-hour (the tariff day
boundary, 06:00 local per the spec example and the tests named around
hour six); mirrors const.HOUR_OF_CHANGE, whose source file is missing. -/
def HOUR_OF_CHANGE : Nat := 6

/-- Modelled from the spec: the confirmation time-of-day hour (11:00 local
per the spec example); mirrors const.CONFIRM_HOUR, whose source file is
missing. -/
def CONFIRM_HOUR : Nat := 11

/-- Modelled from the spec: the confirmation time-of-day minute; mirrors
const.CONFIRM_MIN, whose source file is missing. -/
def CONFIRM_MIN : Nat := 0

/-- Modelled from the spec: shift a datetime by the configured change-hour
(the time-aligned day-boundary shift of section 4.4); mirrors
api_worker.adjust_tempo_time, whose source file is missing. -/
def adjust_tempo_time (t : LocalDT) : LocalDT :=
  addMinutes t (HOUR_OF_CHANGE * 60)

/-- Modelled from the spec, section 4.5: the adaptive wait computation
(APIWorker._compute_wait_time, whose source file is missing), returning a
duration in minutes. Unset data end gives the 10-minute bootstrap retry;
otherwise the day-ahead count of the known data end relative to the
current day selects among the documented branches (a) to (e). -/
def compute_wait_time (now : LocalDT) : Option LocalDT → Int
  | none => 10
  | some dataEnd =>
    if dataEnd.day - now.day = 2 then
      if CONFIRM_HOUR * 60 + CONFIRM_MIN ≤ now.minute then
        (1440 - (now.minute : Int)) + HOUR_OF_CHANGE * 60
      else
        ((CONFIRM_HOUR * 60 + CONFIRM_MIN : Nat) : Int) - now.minute
    else if dataEnd.day - now.day = 1 then
      if now.minute < HOUR_OF_CHANGE * 60 then
        ((HOUR_OF_CHANGE * 60 : Nat) : Int) - now.minute
      else 30
    else 60

/-- Guard of the bootstrap case: no data yet. -/
def guard_bootstrap : Option LocalDT → Bool
  | none => true
  | some _ => false

/-- Guard of branch (a): tomorrow known, at or past the confirmation
time-of-day. -/
def guard_a (now : LocalDT) : Option LocalDT → Bool
  | none => false
  | some d => decide (d.day - now.day = 2)
      && decide (CONFIRM_HOUR * 60 + CONFIRM_MIN ≤ now.minute)

/-- Guard of branch (b): tomorrow known, before the confirmation
time-of-day. -/
def guard_b (now : LocalDT) : Option LocalDT → Bool
  | none => false
  | some d => decide (d.day - now.day = 2)
      && decide (now.minute < CONFIRM_HOUR * 60 + CONFIRM_MIN)

/-- Guard of branch (c): tomorrow unknown, before the change-hour. -/
def guard_c (now : LocalDT) : Option LocalDT → Bool
  | none => false
  | some d => decide (d.day - now.day = 1)
      && decide (now.minute < HOUR_OF_CHANGE * 60)

/-- Guard of branch (d): tomorrow unknown, at or past the change-hour. -/
def guard_d (now : LocalDT) : Option LocalDT → Bool
  | none => false
  | some d => decide (d.day - now.day = 1)
      && decide (HOUR_OF_CHANGE * 60 ≤ now.minute)

/-- Guard of branch (e): unexpected day-ahead count. -/
def guard_e (now : LocalDT) : Option LocalDT → Bool
  | none => false
  | some d => decide (d.day - now.day ≠ 1) && decide (d.day - now.day ≠ 2)

/-- Number of lettered branches (a) to (e) whose guard holds. -/
def letteredCount (now : LocalDT) (de : Option LocalDT) : Nat :=
  (if guard_a now de then 1 else 0) + (if guard_b now de then 1 else 0)
    + (if guard_c now de then 1 else 0) + (if guard_d now de then 1 else 0)
    + (if guard_e now de then 1 else 0)

/-- Number of documented cases (bootstrap plus lettered branches) whose
guard holds. -/
def branchCount (now : LocalDT) (de : Option LocalDT) : Nat :=
  (if guard_bootstrap de then 1 else 0) + letteredCount now de

/-- Modelled from the spec: one of the three tariff colors (section 3);
unrecognized colors are represented only as an absent value on raw
entries. -/
inductive TempoColor
  | blue
  | white
  | red
deriving DecidableEq, Repr

/-- Modelled from the spec, section 6: one raw calendar entry of the
remote JSON payload, with zoned start/end/updated timestamps and an
optional color value (absent when the value field is missing). -/
structure RawEntry where
  start_date : LocalDT
  end_date : LocalDT
  value : Option TempoColor
  updated_date : LocalDT

/-- Modelled from the spec, sections 4.1 and 6: an HTTP response as the
classifier sees it: a status code, the raw body text, the result of
attempting to parse the body as structured JSON with error and
error_description fields (absent when parsing fails or the fields are
missing), and the result of attempting to parse the body as the calendar
payload (absent on malformed JSON). -/
structure Response where
  status : Nat
  text : String
  errJson : Option (String × String)
  payload : Option (List RawEntry)

/-- Modelled from the spec, section 4.1: the three error kinds raised by
the classifier, each carrying the status code and a message; mirrors
api_worker.BadRequest, api_worker.ServerError and
api_worker.UnexpectedError, whose source file is missing. -/
inductive ApiError
  | BadRequest (code : Nat) (msg : String)
  | ServerError (code : Nat) (msg : String)
  | UnexpectedError (code : Nat) (msg : String)
deriving DecidableEq, Repr

/-- Modelled from the spec, section 4.1: the message detail built from the
body: the parsed error and error_description fields when available, else
the raw body text. -/
def errDetail (r : Response) : String :=
  match r.errJson with
  | some (e, d) => e ++ " - " ++ d
  | none => r.text

/-- Error message of one classifier branch: the documented reason phrase
followed by the body detail. -/
def mkMsg (doc detail : String) : String :=
  doc ++ ": " ++ detail

/-- Modelled from the spec, section 4.1: the HTTP error classifier;
mirrors api_worker.handle_api_errors, whose source file is missing.
Status 200 returns normally; the tabulated statuses raise their documented
kind with the documented reason phrase; every other status raises
UnexpectedError carrying the raw status and body. -/
def handle_api_errors (r : Response) : Except ApiError Unit :=
  if r.status = 200 then .ok ()
  else if r.status = 400 then
    .error (.BadRequest 400 (mkMsg "Bad Request" (errDetail r)))
  else if r.status = 401 then
    .error (.BadRequest 401 (mkMsg "Unauthorized" (errDetail r)))
  else if r.status = 403 then
    .error (.BadRequest 403 (mkMsg "Forbidden" (errDetail r)))
  else if r.status = 404 then
    .error (.BadRequest 404 (mkMsg "Not Found" (errDetail r)))
  else if r.status = 408 then
    .error (.BadRequest 408 (mkMsg "Request Time-out" (errDetail r)))
  else if r.status = 413 then
    .error (.BadRequest 413 (mkMsg "Request Entity Too Large" (errDetail r)))
  else if r.status = 414 then
    .error (.BadRequest 414 (mkMsg "Request-URI Too Long" (errDetail r)))
  else if r.status = 429 then
    .error (.BadRequest 429 (mkMsg "Too Many Requests" (errDetail r)))
  else if r.status = 500 then
    .error (.ServerError 500 (mkMsg "Internal Server Error" (errDetail r)))
  else if r.status = 503 then
    .error (.ServerError 503 (mkMsg "Service Unavailable" (errDetail r)))
  else if r.status = 509 then
    .error (.ServerError 509 (mkMsg "Bandwidth Limit Exceeded" (errDetail r)))
  else
    .error (.UnexpectedError r.status
      (mkMsg ("Unexpected HTTP status " ++ toString r.status) r.text))

/-- Substring containment on strings, stated on the underlying character
lists. -/
def strContains (m sub : String) : Prop :=
  ∃ s t : List Char, m.data = s ++ sub.data ++ t

/-- The classifier raises BadRequest with the status code, a message
containing the documented phrase, and the raw body text when the body was
not parseable. -/
def raisesBadRequest (r : Response) (doc : String) : Prop :=
  ∃ m, handle_api_errors r = .error (.BadRequest r.status m) ∧
    strContains m doc ∧ (r.errJson = none → strContains m r.text)

/-- The classifier raises ServerError with the status code, a message
containing the documented phrase, and the raw body text when the body was
not parseable. -/
def raisesServerError (r : Response) (doc : String) : Prop :=
  ∃ m, handle_api_errors r = .error (.ServerError r.status m) ∧
    strContains m doc ∧ (r.errJson = none → strContains m r.text)

/-- The classifier raises UnexpectedError carrying the raw status and a
message containing the raw body text. -/
def raisesUnexpected (r : Response) : Prop :=
  ∃ m, handle_api_errors r = .error (.UnexpectedError r.status m) ∧
    strContains m r.text

/-- Modelled from the spec, section 4.4: the single documented anomaly
date, 2022-12-28 (the one data-repair override), as its civil day
index. -/
def ANOMALY_DAY : Int := daysFromCivil ⟨2022, 12, 28⟩

/-- Modelled from the spec, section 4.4: the effective color of a raw
entry: its value when present; blue when the value is missing and the
start date equals the documented anomaly date; absent (the entry is
dropped) otherwise. -/
def entryValue (e : RawEntry) : Option TempoColor :=
  match e.value with
  | some c => some c
  | none => if e.start_date.day = ANOMALY_DAY then some .blue else none

/-- Modelled from the spec, section 3: one date-aligned tariff record,
with boundaries truncated to civil dates (day indexes). -/
structure TempoDayDate where
  Start : Int
  End : Int
  Value : TempoColor
  Updated : LocalDT

/-- Modelled from the spec, section 3: one time-aligned tariff record,
with boundaries shifted by the configured change-hour. -/
structure TempoDayTime where
  Start : LocalDT
  End : LocalDT
  Value : TempoColor
  Updated : LocalDT

/-- Modelled from the spec, section 4.4: parse one raw entry into a
date-aligned record, or drop it. -/
def parseDateDay (e : RawEntry) : Option TempoDayDate :=
  (entryValue e).map fun v =>
    ⟨e.start_date.day, e.end_date.day, v, e.updated_date⟩

/-- Modelled from the spec, section 4.4: parse one raw entry into a
time-aligned record (boundaries shifted by the change-hour), or drop
it. -/
def parseTimeDay (e : RawEntry) : Option TempoDayTime :=
  (entryValue e).map fun v =>
    ⟨adjust_tempo_time e.start_date, adjust_tempo_time e.end_date, v,
      e.updated_date⟩

/-- Modelled from the spec, section 4.4: build both collections from the
fetched entries (the date-aligned and the time-aligned projection of the
same dataset). -/
def ingest (entries : List RawEntry) :
    List TempoDayDate × List TempoDayTime :=
  (entries.filterMap parseDateDay, entries.filterMap parseTimeDay)

/-- Modelled from the spec, section 4.3: the possible outcomes of one
authenticated GET attempt: the bearer token is reported expired, a
transport-level failure, an authentication failure, or an HTTP
response. -/
inductive GetOutcome
  | tokenExpired
  | netError
  | oauthError
  | resp (r : Response)

/-- Modelled from the spec, sections 4.3 and 7: the failure signals a
fetch call reports instead of propagating an exception. -/
inductive FetchFailure
  | network
  | oauth
  | tokenStillExpired
deriving DecidableEq, Repr

/-- Modelled from the spec, sections 4.3 and 9: the authenticated fetch
with its retry-once-on-token-expiry policy, written as the explicit
two-step function the design notes prescribe (attempt, refresh on the
expiry signal, retry once). The environment is an oracle giving the
outcome of the n-th GET issued within this call. Returns the result
together with the number of GET requests issued and the number of
credential refreshes performed; mirrors APIWorker._get_tempo_data, whose
source file is missing. -/
def get_tempo_data (attempt : Nat → GetOutcome) :
    Except FetchFailure Response × Nat × Nat :=
  match attempt 0 with
  | .resp r => (.ok r, 1, 0)
  | .netError => (.error .network, 1, 0)
  | .oauthError => (.error .oauth, 1, 0)
  | .tokenExpired =>
    match attempt 1 with
    | .resp r => (.ok r, 2, 1)
    | .netError => (.error .network, 2, 1)
    | .oauthError => (.error .oauth, 2, 1)
    | .tokenExpired => (.error .tokenStillExpired, 2, 1)

/-- Modelled from the spec, sections 4.6 and 7: the worker state the
update cycle reads and writes: the known data horizon and the two
collections. -/
structure WorkerState where
  known_data_end : Option LocalDT
  tempo_days_date : List TempoDayDate
  tempo_days_time : List TempoDayTime

/-- Modelled from the spec, section 4.4: the furthest known End among the
stored records, used by the scheduler as the known data horizon. -/
def furthestEnd (days : List TempoDayTime) : Option LocalDT :=
  days.foldr (fun d acc =>
    match acc with
    | none => some d.End
    | some m => if toMinutes m < toMinutes d.End then some d.End else some m)
    none

/-- Modelled from the spec, sections 4.4, 4.6 and 7: one update cycle of
the worker loop: fetch (with the retry-once policy), classify the
response, parse the payload, ingest on success; every failure is caught
locally and signalled as no new data, leaving the state unchanged;
mirrors APIWorker._update_tempo_days, whose source file is missing. -/
def update_tempo_days (s : WorkerState) (attempt : Nat → GetOutcome) :
    WorkerState × Option LocalDT :=
  match (get_tempo_data attempt).1 with
  | .error _ => (s, none)
  | .ok r =>
    match handle_api_errors r with
    | .error _ => (s, none)
    | .ok _ =>
      match r.payload with
      | none => (s, none)
      | some entries =>
        (⟨furthestEnd (ingest entries).2, (ingest entries).1,
          (ingest entries).2⟩, furthestEnd (ingest entries).2)

-- Sanity anchors for the calendar arithmetic (concrete evaluations).
example : daysFromCivil ⟨1970, 1, 1⟩ = 0 := by decide
example : weekday ⟨2025, 1, 18⟩ = 5 := by decide
example : compute_easter 2025 = ⟨2025, 4, 20⟩ := by decide
example : compute_easter 2026 = ⟨2026, 4, 5⟩ := by decide
example : addDays ⟨2025, 4, 20⟩ 50 = ⟨2025, 6, 9⟩ := by decide
example : is_french_holiday ⟨2025, 6, 9⟩ = true := by decide
example : is_french_holiday ⟨2025, 1, 18⟩ = false := by decide
example : is_french_holiday ⟨2025, 7, 14⟩ = true := by decide

/-- Shared helper: branch equation of adjust_forecast_day for holidays. -/
lemma adjust_eq_holiday (f : ForecastDay)
    (h : is_french_holiday f.date = true) :
    adjust_forecast_day f = ⟨f.date, "bleu", none, some "F", f.source⟩ := by
  unfold adjust_forecast_day
  rw [if_pos h]

/-- Shared helper: branch equation of adjust_forecast_day for non-holiday
Sundays. -/
lemma adjust_eq_sunday (f : ForecastDay)
    (h1 : is_french_holiday f.date = false) (h2 : weekday f.date = 6) :
    adjust_forecast_day f = ⟨f.date, "bleu", none, some "D", f.source⟩ := by
  unfold adjust_forecast_day
  rw [if_neg (by rw [h1]; decide), if_pos h2]

/-- Shared helper: branch equation of adjust_forecast_day for non-holiday
Saturdays that were red. -/
lemma adjust_eq_saturday_red (f : ForecastDay)
    (h1 : is_french_holiday f.date = false) (h2 : weekday f.date = 5)
    (h3 : f.color = "rouge") :
    adjust_forecast_day f =
      ⟨f.date, "blanc",
        some (if f.probability.getD 0 > 6 / 10 then (1 : ℚ)
          else min (f.probability.getD 0 + 1 / 10) 1),
        none, f.source⟩ := by
  unfold adjust_forecast_day
  rw [if_neg (by rw [h1]; decide), if_neg (by rw [h2]; decide),
    if_pos ⟨h2, h3⟩]

/-- Shared helper: branch equation of adjust_forecast_day when no rule
applies. -/
lemma adjust_eq_keep (f : ForecastDay)
    (h1 : is_french_holiday f.date = false) (h2 : weekday f.date ≠ 6)
    (h3 : ¬(weekday f.date = 5 ∧ f.color = "rouge")) :
    adjust_forecast_day f =
      ⟨f.date, f.color, f.probability, none, f.source⟩ := by
  unfold adjust_forecast_day
  rw [if_neg (by rw [h1]; decide), if_neg h2, if_neg h3]

/-- Shared helper: the adjusted forecast keeps the date of its input. -/
lemma adjust_forecast_day_date (f : ForecastDay) :
    (adjust_forecast_day f).date = f.date := by
  unfold adjust_forecast_day
  dsimp only
  split_ifs <;> rfl

/-- Shared helper: pointwise weekend/holiday invariants of one adjusted
forecast. -/
lemma adjust_forecast_day_invariant (f : ForecastDay) :
    (is_french_holiday (adjust_forecast_day f).date = true →
      (adjust_forecast_day f).color = "bleu" ∧
      (adjust_forecast_day f).indicator = some "F") ∧
    (is_french_holiday (adjust_forecast_day f).date = false →
      weekday (adjust_forecast_day f).date = 6 →
      (adjust_forecast_day f).color = "bleu" ∧
      (adjust_forecast_day f).indicator = some "D") ∧
    (weekday (adjust_forecast_day f).date = 5 →
      (adjust_forecast_day f).color ≠ "rouge") := by
  rw [adjust_forecast_day_date f]
  cases hhol : is_french_holiday f.date with
  | true =>
    rw [adjust_eq_holiday f hhol]
    refine ⟨fun _ => ⟨rfl, rfl⟩, fun hf _ => absurd hf (by decide),
      fun _ => ?_⟩
    show ("bleu" : String) ≠ "rouge"
    decide
  | false =>
    by_cases h6 : weekday f.date = 6
    · rw [adjust_eq_sunday f hhol h6]
      refine ⟨fun ht => absurd ht (by decide), fun _ _ => ⟨rfl, rfl⟩,
        fun h5 => ?_⟩
      rw [h6] at h5
      cases h5
    · by_cases h5r : weekday f.date = 5 ∧ f.color = "rouge"
      · rw [adjust_eq_saturday_red f hhol h5r.1 h5r.2]
        refine ⟨fun ht => absurd ht (by decide), fun _ hs => absurd hs h6,
          fun _ => ?_⟩
        show ("blanc" : String) ≠ "rouge"
        decide
      · rw [adjust_eq_keep f hhol h6 h5r]
        exact ⟨fun ht => absurd ht (by decide), fun _ hs => absurd hs h6,
          fun h5 hc => h5r ⟨h5, hc⟩⟩

/-- Shared helper: a non-holiday Saturday that was red becomes white, and
its probability stays a probability when the input one was absent or
valid. -/
lemma adjust_forecast_day_saturday_red (f : ForecastDay)
    (hwd : weekday f.date = 5) (hh : is_french_holiday f.date = false)
    (hc : f.color = "rouge") (hp : probOk f.probability) :
    (adjust_forecast_day f).color = "blanc" ∧
    ∃ q, (adjust_forecast_day f).probability = some q ∧ 0 ≤ q ∧ q ≤ 1 := by
  rw [adjust_eq_saturday_red f hh hwd hc]
  refine ⟨rfl, ?_⟩
  cases hprob : f.probability with
  | none =>
    simp only [hprob, Option.getD_none]
    split_ifs with hgt
    · exact ⟨1, rfl, by norm_num⟩
    · exact ⟨min (0 + 1 / 10) 1, rfl, by norm_num, min_le_right _ _⟩
  | some p =>
    simp only [hprob, Option.getD_some]
    rw [hprob] at hp
    obtain ⟨hp0, hp1⟩ := hp
    split_ifs with hgt
    · exact ⟨1, rfl, by norm_num⟩
    · refine ⟨min (p + 1 / 10) 1, rfl, ?_, min_le_right _ _⟩
      have hge : (0 : ℚ) ≤ p + 1 / 10 := by linarith
      exact le_min hge (by norm_num)

/-- Shared helper: apply_tempo_rules is the elementwise map of
adjust_forecast_day. -/
lemma apply_tempo_rules_eq_map (fs : List ForecastDay) :
    apply_tempo_rules fs = fs.map adjust_forecast_day := by
  induction fs with
  | nil => rfl
  | cons f rest ih => simp [apply_tempo_rules, ih]

/-- C8: apply_tempo_rules is pure and stateless: it is deterministic, it is
exactly the elementwise image of its input under adjust_forecast_day, and
it preserves length and order (elementwise access agrees at every
index). -/
theorem apply_tempo_rules_pure_map (fs : List ForecastDay) :
    apply_tempo_rules fs = fs.map adjust_forecast_day ∧
    (apply_tempo_rules fs).length = fs.length ∧
    (∀ i : Nat, (apply_tempo_rules fs)[i]?
      = (fs[i]?).map adjust_forecast_day) ∧
    (∀ gs : List ForecastDay, fs = gs →
      apply_tempo_rules fs = apply_tempo_rules gs) := by
  have hmap := apply_tempo_rules_eq_map fs
  refine ⟨hmap, by rw [hmap]; exact List.length_map _ _, fun i => ?_,
    fun gs heq => by rw [heq]⟩
  rw [hmap]
  exact List.getElem?_map _ _ _

/-- C8 witness: concrete evaluation of the purity theorem on a one-element
list. -/
theorem apply_tempo_rules_pure_map_witness :
    apply_tempo_rules [⟨⟨2025, 1, 15⟩, "rouge", some (1/2), none, "open_dpe"⟩]
      = List.map adjust_forecast_day
          [⟨⟨2025, 1, 15⟩, "rouge", some (1/2), none, "open_dpe"⟩] ∧
    apply_tempo_rules [⟨⟨2025, 1, 15⟩, "rouge", some (1/2), none, "open_dpe"⟩]
      = apply_tempo_rules
          [⟨⟨2025, 1, 15⟩, "rouge", some (1/2), none, "open_dpe"⟩] :=
  ⟨(apply_tempo_rules_pure_map
      [⟨⟨2025, 1, 15⟩, "rouge", some (1/2), none, "open_dpe"⟩]).1,
    (apply_tempo_rules_pure_map
      [⟨⟨2025, 1, 15⟩, "rouge", some (1/2), none, "open_dpe"⟩]).2.2.2
      [⟨⟨2025, 1, 15⟩, "rouge", some (1/2), none, "open_dpe"⟩] rfl⟩

/-- C9 (amended): every output of apply_tempo_rules on a French public
holiday is blue with indicator F; on a non-holiday Sunday it is blue with
indicator D; no output dated on a Saturday is red; and a non-holiday
Saturday that was red becomes white with a probability in the unit
interval whenever its original probability was absent or itself in the
unit interval. -/
theorem apply_tempo_rules_weekend_holiday_invariants
    (fs : List ForecastDay) :
    (∀ g ∈ apply_tempo_rules fs,
      (is_french_holiday g.date = true →
        g.color = "bleu" ∧ g.indicator = some "F") ∧
      (is_french_holiday g.date = false → weekday g.date = 6 →
        g.color = "bleu" ∧ g.indicator = some "D") ∧
      (weekday g.date = 5 → g.color ≠ "rouge")) ∧
    (∀ f ∈ fs, weekday f.date = 5 → is_french_holiday f.date = false →
      f.color = "rouge" → probOk f.probability →
      (adjust_forecast_day f).color = "blanc" ∧
      ∃ q, (adjust_forecast_day f).probability = some q ∧
        0 ≤ q ∧ q ≤ 1) := by
  constructor
  · intro g hg
    rw [apply_tempo_rules_eq_map] at hg
    obtain ⟨f, _, rfl⟩ := List.mem_map.mp hg
    exact adjust_forecast_day_invariant f
  · intro f _ h5 hh hc hp
    exact adjust_forecast_day_saturday_red f h5 hh hc hp

/-- C9 witness: concrete application of the invariant theorem, on a
holiday forecast (2025-07-14) and a Saturday red forecast (2025-01-18)
with a valid probability. -/
theorem apply_tempo_rules_weekend_holiday_invariants_witness :
    ((adjust_forecast_day ⟨⟨2025, 7, 14⟩, "rouge", some (1/2), none,
      "open_dpe"⟩).color = "bleu" ∧
     (adjust_forecast_day ⟨⟨2025, 7, 14⟩, "rouge", some (1/2), none,
      "open_dpe"⟩).indicator = some "F") ∧
    (adjust_forecast_day ⟨⟨2025, 1, 18⟩, "rouge", some (1/2), none,
      "open_dpe"⟩).color = "blanc" := by
  constructor
  · exact ((apply_tempo_rules_weekend_holiday_invariants
      [⟨⟨2025, 7, 14⟩, "rouge", some (1/2), none, "open_dpe"⟩]).1
      (adjust_forecast_day ⟨⟨2025, 7, 14⟩, "rouge", some (1/2), none,
        "open_dpe"⟩)
      (by simp [apply_tempo_rules])).1 (by decide)
  · exact ((apply_tempo_rules_weekend_holiday_invariants
      [⟨⟨2025, 1, 18⟩, "rouge", some (1/2), none, "open_dpe"⟩]).2
      ⟨⟨2025, 1, 18⟩, "rouge", some (1/2), none, "open_dpe"⟩
      (by simp) (by decide) (by decide) rfl
      (show (0 : ℚ) ≤ 1/2 ∧ (1/2 : ℚ) ≤ 1 by norm_num)).1

/-- C9 counterexample: on a non-holiday Saturday (2025-01-18) that was red
with original probability minus one, the output of apply_tempo_rules is
white with probability minus nine tenths, which is not in the unit
interval; so the claim is false as stated over all forecast lists. -/
theorem apply_tempo_rules_saturday_prob_counterexample :
    weekday ⟨2025, 1, 18⟩ = 5 ∧
    is_french_holiday ⟨2025, 1, 18⟩ = false ∧
    apply_tempo_rules
        [⟨⟨2025, 1, 18⟩, "rouge", some (-1), none, "open_dpe"⟩]
      = [⟨⟨2025, 1, 18⟩, "blanc", some (-9/10), none, "open_dpe"⟩] ∧
    ¬(0 ≤ (-9/10 : ℚ)) := by
  have hwd : weekday ⟨2025, 1, 18⟩ = 5 := by decide
  have hh : is_french_holiday ⟨2025, 1, 18⟩ = false := by decide
  refine ⟨hwd, hh, ?_, by norm_num⟩
  have hadj : adjust_forecast_day
      ⟨⟨2025, 1, 18⟩, "rouge", some (-1), none, "open_dpe"⟩
      = ⟨⟨2025, 1, 18⟩, "blanc", some (-9/10), none, "open_dpe"⟩ := by
    rw [adjust_eq_saturday_red
      ⟨⟨2025, 1, 18⟩, "rouge", some (-1), none, "open_dpe"⟩ hh hwd rfl]
    have h1 : ¬((some (-1 : ℚ)).getD 0 > 6/10) := by
      simp only [Option.getD_some]
      norm_num
    rw [if_neg h1]
    have h2 : min ((some (-1 : ℚ)).getD 0 + 1/10) 1 = -9/10 := by
      simp only [Option.getD_some]
      rw [min_eq_left (by norm_num)]
      norm_num
    rw [h2]
  simp [apply_tempo_rules, hadj]

/-- C10: for every year in the documented validity range 1583 to 4099,
compute_easter yields a date in March or April whose day is within the
length of that month (so the Python datetime.date construction never
raises), and the year component is the input year. -/
theorem compute_easter_valid_date (year : Int)
    (h1 : 1583 ≤ year) (h2 : year ≤ 4099) :
    ((compute_easter year).month = 3 ∨ (compute_easter year).month = 4) ∧
    1 ≤ (compute_easter year).day ∧
    (compute_easter year).day
      ≤ daysInMonth (compute_easter year).year (compute_easter year).month ∧
    (compute_easter year).year = year := by
  unfold compute_easter daysInMonth
  dsimp only
  split_ifs <;> omega

/-- C10 witness: the theorem applied at the year 2025. -/
theorem compute_easter_valid_date_witness :
    ((compute_easter 2025).month = 3 ∨ (compute_easter 2025).month = 4) ∧
    1 ≤ (compute_easter 2025).day := by
  have h := compute_easter_valid_date 2025 (by norm_num) (by norm_num)
  exact ⟨h.1, h.2.1⟩

/-- C7: adjust_tempo_time is a fixed-offset shift: for every localized
datetime the result equals the input plus exactly HOUR_OF_CHANGE hours
(stated on total minutes, which determine the datetime). -/
theorem adjust_tempo_time_fixed_offset (t : LocalDT) :
    toMinutes (adjust_tempo_time t) = toMinutes t + HOUR_OF_CHANGE * 60 := by
  unfold adjust_tempo_time addMinutes toMinutes HOUR_OF_CHANGE
  push_cast
  omega

/-- C1 (amended): the adaptive wait computation is total, returns a
strictly positive duration in minutes for every input, and falls in
exactly one of the six documented cases: the bootstrap case when the known
data end is unset, else exactly one of the lettered branches (a) to (e),
each returning its documented duration. -/
theorem compute_wait_time_total_and_branches
    (now : LocalDT) (de : Option LocalDT) :
    0 < compute_wait_time now de ∧
    branchCount now de = 1 ∧
    (guard_bootstrap de = true → compute_wait_time now de = 10) ∧
    (guard_a now de = true → compute_wait_time now de
      = (1440 - (now.minute : Int)) + HOUR_OF_CHANGE * 60) ∧
    (guard_b now de = true → compute_wait_time now de
      = ((CONFIRM_HOUR * 60 + CONFIRM_MIN : Nat) : Int) - now.minute) ∧
    (guard_c now de = true → compute_wait_time now de
      = ((HOUR_OF_CHANGE * 60 : Nat) : Int) - now.minute) ∧
    (guard_d now de = true → compute_wait_time now de = 30) ∧
    (guard_e now de = true → compute_wait_time now de = 60) := by
  have hm := now.hlt
  cases de with
  | none =>
    exact ⟨by norm_num [compute_wait_time], by rfl, fun _ => rfl,
      fun h => Bool.noConfusion h, fun h => Bool.noConfusion h,
      fun h => Bool.noConfusion h, fun h => Bool.noConfusion h,
      fun h => Bool.noConfusion h⟩
  | some d =>
    simp only [compute_wait_time, branchCount, letteredCount,
      guard_bootstrap, guard_a, guard_b, guard_c, guard_d, guard_e,
      HOUR_OF_CHANGE, CONFIRM_HOUR, CONFIRM_MIN, Bool.and_eq_true,
      decide_eq_true_eq, Bool.false_eq_true, if_false]
    refine ⟨?_, ?_, fun h => h.elim, ?_, ?_, ?_, ?_, ?_⟩
    · split_ifs <;> omega
    · split_ifs <;> omega
    · intro h
      split_ifs <;> omega
    · intro h
      split_ifs <;> omega
    · intro h
      split_ifs <;> omega
    · intro h
      split_ifs <;> omega
    · intro h
      split_ifs <;> omega

/-- C1 witness: the branch theorem evaluated at a concrete instant
(minute 700 of day zero) with a known data end two days ahead, which
falls in branch (a) and yields an 1100-minute wait until the next
change-hour boundary. -/
theorem compute_wait_time_total_and_branches_witness :
    0 < compute_wait_time ⟨0, 700, by decide⟩ (some ⟨2, 0, by decide⟩) ∧
    branchCount ⟨0, 700, by decide⟩ (some ⟨2, 0, by decide⟩) = 1 ∧
    compute_wait_time ⟨0, 700, by decide⟩ (some ⟨2, 0, by decide⟩)
      = 1100 := by
  have h := compute_wait_time_total_and_branches
    ⟨0, 700, by decide⟩ (some ⟨2, 0, by decide⟩)
  exact ⟨h.1, h.2.1, (h.2.2.2.1 (by decide)).trans (by decide)⟩

/-- C1 counterexample: with the known data end unset the computation
returns the 10-minute bootstrap wait, and none of the five lettered
branches (a) to (e) applies, so the result does not fall in one of the
five documented branches as the claim states. -/
theorem compute_wait_time_unset_not_lettered :
    compute_wait_time ⟨0, 0, by decide⟩ none = 10 ∧
    letteredCount ⟨0, 0, by decide⟩ none = 0 := by
  exact ⟨rfl, rfl⟩

/-- C2: with the known data end unset, the wait computation returns
exactly 10 minutes, for every current instant. -/
theorem compute_wait_time_unset_ten_minutes (now : LocalDT) :
    compute_wait_time now none = 10 := rfl

/-- Shared helper: a classifier message contains any phrase the reason
phrase splits around. -/
lemma strContains_mkMsg_of_split (doc sub detail : String) (s t : List Char)
    (h : doc.data = s ++ sub.data ++ t) :
    strContains (mkMsg doc detail) sub := by
  refine ⟨s, t ++ ((": " : String).data ++ detail.data), ?_⟩
  simp [mkMsg, String.data_append, h, List.append_assoc]

/-- Shared helper: a classifier message contains its reason phrase. -/
lemma strContains_mkMsg_doc (doc detail : String) :
    strContains (mkMsg doc detail) doc :=
  strContains_mkMsg_of_split doc doc detail [] [] (by simp)

/-- Shared helper: a classifier message contains its body detail. -/
lemma strContains_mkMsg_detail (doc detail : String) :
    strContains (mkMsg doc detail) detail := by
  refine ⟨doc.data ++ (": " : String).data, [], ?_⟩
  simp [mkMsg, String.data_append]

/-- Shared helper: when the body is not parseable, the detail is the raw
body text. -/
lemma errDetail_of_none (r : Response) (h : r.errJson = none) :
    errDetail r = r.text := by
  simp [errDetail, h]

/-- Shared helper: the classifier returns normally exactly on status
200. -/
lemma handle_api_errors_ok_iff (r : Response) :
    handle_api_errors r = .ok () ↔ r.status = 200 := by
  constructor
  · intro hok
    by_contra h200
    unfold handle_api_errors at hok
    rw [if_neg h200] at hok
    by_cases h400 : r.status = 400
    · rw [if_pos h400] at hok
      exact Except.noConfusion hok
    rw [if_neg h400] at hok
    by_cases h401 : r.status = 401
    · rw [if_pos h401] at hok
      exact Except.noConfusion hok
    rw [if_neg h401] at hok
    by_cases h403 : r.status = 403
    · rw [if_pos h403] at hok
      exact Except.noConfusion hok
    rw [if_neg h403] at hok
    by_cases h404 : r.status = 404
    · rw [if_pos h404] at hok
      exact Except.noConfusion hok
    rw [if_neg h404] at hok
    by_cases h408 : r.status = 408
    · rw [if_pos h408] at hok
      exact Except.noConfusion hok
    rw [if_neg h408] at hok
    by_cases h413 : r.status = 413
    · rw [if_pos h413] at hok
      exact Except.noConfusion hok
    rw [if_neg h413] at hok
    by_cases h414 : r.status = 414
    · rw [if_pos h414] at hok
      exact Except.noConfusion hok
    rw [if_neg h414] at hok
    by_cases h429 : r.status = 429
    · rw [if_pos h429] at hok
      exact Except.noConfusion hok
    rw [if_neg h429] at hok
    by_cases h500 : r.status = 500
    · rw [if_pos h500] at hok
      exact Except.noConfusion hok
    rw [if_neg h500] at hok
    by_cases h503 : r.status = 503
    · rw [if_pos h503] at hok
      exact Except.noConfusion hok
    rw [if_neg h503] at hok
    by_cases h509 : r.status = 509
    · rw [if_pos h509] at hok
      exact Except.noConfusion hok
    rw [if_neg h509] at hok
    exact Except.noConfusion hok
  · intro h
    unfold handle_api_errors
    rw [if_pos h]

/-- Shared helper: classifier branch equation for status 400. -/
lemma handle_eq_400 (r : Response) (h : r.status = 400) :
    handle_api_errors r
      = .error (.BadRequest 400 (mkMsg "Bad Request" (errDetail r))) := by
  unfold handle_api_errors
  rw [h]
  norm_num

/-- Shared helper: classifier branch equation for status 401. -/
lemma handle_eq_401 (r : Response) (h : r.status = 401) :
    handle_api_errors r
      = .error (.BadRequest 401 (mkMsg "Unauthorized" (errDetail r))) := by
  unfold handle_api_errors
  rw [h]
  norm_num

/-- Shared helper: classifier branch equation for status 403. -/
lemma handle_eq_403 (r : Response) (h : r.status = 403) :
    handle_api_errors r
      = .error (.BadRequest 403 (mkMsg "Forbidden" (errDetail r))) := by
  unfold handle_api_errors
  rw [h]
  norm_num

/-- Shared helper: classifier branch equation for status 404. -/
lemma handle_eq_404 (r : Response) (h : r.status = 404) :
    handle_api_errors r
      = .error (.BadRequest 404 (mkMsg "Not Found" (errDetail r))) := by
  unfold handle_api_errors
  rw [h]
  norm_num

/-- Shared helper: classifier branch equation for status 408. -/
lemma handle_eq_408 (r : Response) (h : r.status = 408) :
    handle_api_errors r
      = .error (.BadRequest 408 (mkMsg "Request Time-out" (errDetail r))) := by
  unfold handle_api_errors
  rw [h]
  norm_num

/-- Shared helper: classifier branch equation for status 413. -/
lemma handle_eq_413 (r : Response) (h : r.status = 413) :
    handle_api_errors r
      = .error (.BadRequest 413 (mkMsg "Request Entity Too Large" (errDetail r))) := by
  unfold handle_api_errors
  rw [h]
  norm_num

/-- Shared helper: classifier branch equation for status 414. -/
lemma handle_eq_414 (r : Response) (h : r.status = 414) :
    handle_api_errors r
      = .error (.BadRequest 414 (mkMsg "Request-URI Too Long" (errDetail r))) := by
  unfold handle_api_errors
  rw [h]
  norm_num

/-- Shared helper: classifier branch equation for status 429. -/
lemma handle_eq_429 (r : Response) (h : r.status = 429) :
    handle_api_errors r
      = .error (.BadRequest 429 (mkMsg "Too Many Requests" (errDetail r))) := by
  unfold handle_api_errors
  rw [h]
  norm_num

/-- Shared helper: classifier branch equation for status 500. -/
lemma handle_eq_500 (r : Response) (h : r.status = 500) :
    handle_api_errors r
      = .error (.ServerError 500 (mkMsg "Internal Server Error" (errDetail r))) := by
  unfold handle_api_errors
  rw [h]
  norm_num

/-- Shared helper: classifier branch equation for status 503. -/
lemma handle_eq_503 (r : Response) (h : r.status = 503) :
    handle_api_errors r
      = .error (.ServerError 503 (mkMsg "Service Unavailable" (errDetail r))) := by
  unfold handle_api_errors
  rw [h]
  norm_num

/-- Shared helper: classifier branch equation for status 509. -/
lemma handle_eq_509 (r : Response) (h : r.status = 509) :
    handle_api_errors r
      = .error (.ServerError 509 (mkMsg "Bandwidth Limit Exceeded" (errDetail r))) := by
  unfold handle_api_errors
  rw [h]
  norm_num

/-- Shared helper: classifier branch equation for untabulated statuses. -/
lemma handle_eq_unexpected (r : Response)
    (h : r.status ∉ ([200, 400, 401, 403, 404, 408, 413, 414, 429,
      500, 503, 509] : List Nat)) :
    handle_api_errors r
      = .error (.UnexpectedError r.status
          (mkMsg ("Unexpected HTTP status " ++ toString r.status)
            r.text)) := by
  simp only [List.mem_cons, List.not_mem_nil, or_false, not_or] at h
  obtain ⟨h1, h2, h3, h4, h5, h6, h7, h8, h9, h10, h11, h12⟩ := h
  unfold handle_api_errors
  rw [if_neg h1, if_neg h2, if_neg h3, if_neg h4, if_neg h5, if_neg h6, if_neg h7, if_neg h8, if_neg h9, if_neg h10, if_neg h11, if_neg h12]

/-- C3: the classifier returns normally iff the status is 200; each
tabulated status raises its documented kind carrying the status code and a
message containing the documented phrase, and the raw body text when the
body was not parseable as structured JSON; every other status raises
UnexpectedError carrying the raw status and body. -/
theorem handle_api_errors_classification (r : Response) :
    (handle_api_errors r = .ok () ↔ r.status = 200) ∧
    (r.status = 400 → raisesBadRequest r "Bad Request") ∧
    (r.status = 401 → raisesBadRequest r "Unauthorized") ∧
    (r.status = 403 → raisesBadRequest r "Forbidden") ∧
    (r.status = 404 → raisesBadRequest r "Not Found") ∧
    (r.status = 408 → raisesBadRequest r "Time-out") ∧
    (r.status = 413 → raisesBadRequest r "Too Large") ∧
    (r.status = 414 → raisesBadRequest r "Too Long") ∧
    (r.status = 429 → raisesBadRequest r "Too Many Requests") ∧
    (r.status = 500 → raisesServerError r "Internal Server Error") ∧
    (r.status = 503 → raisesServerError r "Service Unavailable") ∧
    (r.status = 509 → raisesServerError r "Bandwidth") ∧
    (r.status ∉ ([200, 400, 401, 403, 404, 408, 413, 414, 429,
      500, 503, 509] : List Nat) → raisesUnexpected r) := by
  refine ⟨handle_api_errors_ok_iff r,
    ?_, ?_, ?_, ?_, ?_, ?_, ?_, ?_, ?_, ?_, ?_, ?_⟩
  · intro h
    refine ⟨mkMsg "Bad Request" (errDetail r), ?_,
      strContains_mkMsg_doc _ _, fun hj => ?_⟩
    · rw [h]
      exact handle_eq_400 r h
    · rw [errDetail_of_none r hj] at *
      exact strContains_mkMsg_detail _ _
  · intro h
    refine ⟨mkMsg "Unauthorized" (errDetail r), ?_,
      strContains_mkMsg_doc _ _, fun hj => ?_⟩
    · rw [h]
      exact handle_eq_401 r h
    · rw [errDetail_of_none r hj] at *
      exact strContains_mkMsg_detail _ _
  · intro h
    refine ⟨mkMsg "Forbidden" (errDetail r), ?_,
      strContains_mkMsg_doc _ _, fun hj => ?_⟩
    · rw [h]
      exact handle_eq_403 r h
    · rw [errDetail_of_none r hj] at *
      exact strContains_mkMsg_detail _ _
  · intro h
    refine ⟨mkMsg "Not Found" (errDetail r), ?_,
      strContains_mkMsg_doc _ _, fun hj => ?_⟩
    · rw [h]
      exact handle_eq_404 r h
    · rw [errDetail_of_none r hj] at *
      exact strContains_mkMsg_detail _ _
  · intro h
    refine ⟨mkMsg "Request Time-out" (errDetail r), ?_,
      strContains_mkMsg_of_split _ _ _ ("Request " : String).data []
        (by decide), fun hj => ?_⟩
    · rw [h]
      exact handle_eq_408 r h
    · rw [errDetail_of_none r hj] at *
      exact strContains_mkMsg_detail _ _
  · intro h
    refine ⟨mkMsg "Request Entity Too Large" (errDetail r), ?_,
      strContains_mkMsg_of_split _ _ _ ("Request Entity " : String).data []
        (by decide), fun hj => ?_⟩
    · rw [h]
      exact handle_eq_413 r h
    · rw [errDetail_of_none r hj] at *
      exact strContains_mkMsg_detail _ _
  · intro h
    refine ⟨mkMsg "Request-URI Too Long" (errDetail r), ?_,
      strContains_mkMsg_of_split _ _ _ ("Request-URI " : String).data []
        (by decide), fun hj => ?_⟩
    · rw [h]
      exact handle_eq_414 r h
    · rw [errDetail_of_none r hj] at *
      exact strContains_mkMsg_detail _ _
  · intro h
    refine ⟨mkMsg "Too Many Requests" (errDetail r), ?_,
      strContains_mkMsg_doc _ _, fun hj => ?_⟩
    · rw [h]
      exact handle_eq_429 r h
    · rw [errDetail_of_none r hj] at *
      exact strContains_mkMsg_detail _ _
  · intro h
    refine ⟨mkMsg "Internal Server Error" (errDetail r), ?_,
      strContains_mkMsg_doc _ _, fun hj => ?_⟩
    · rw [h]
      exact handle_eq_500 r h
    · rw [errDetail_of_none r hj] at *
      exact strContains_mkMsg_detail _ _
  · intro h
    refine ⟨mkMsg "Service Unavailable" (errDetail r), ?_,
      strContains_mkMsg_doc _ _, fun hj => ?_⟩
    · rw [h]
      exact handle_eq_503 r h
    · rw [errDetail_of_none r hj] at *
      exact strContains_mkMsg_detail _ _
  · intro h
    refine ⟨mkMsg "Bandwidth Limit Exceeded" (errDetail r), ?_,
      strContains_mkMsg_of_split _ _ _ []
        (" Limit Exceeded" : String).data (by decide), fun hj => ?_⟩
    · rw [h]
      exact handle_eq_509 r h
    · rw [errDetail_of_none r hj] at *
      exact strContains_mkMsg_detail _ _
  · intro h
    exact ⟨mkMsg ("Unexpected HTTP status " ++ toString r.status) r.text,
      handle_eq_unexpected r h, strContains_mkMsg_detail _ _⟩

/-- C3 witness: the classification theorem applied to two concrete
responses, status 401 with an unparseable body and status 200. -/
theorem handle_api_errors_classification_witness :
    raisesBadRequest ⟨401, "raw body", none, none⟩ "Unauthorized" ∧
    handle_api_errors ⟨200, "", none, none⟩ = .ok () :=
  ⟨(handle_api_errors_classification ⟨401, "raw body", none, none⟩).2.2.1
      rfl,
    (handle_api_errors_classification ⟨200, "", none, none⟩).1.mpr rfl⟩

/-- Shared helper: the length of a filterMap is the number of elements the
function keeps. -/
lemma length_filterMap_eq_countP {α β : Type} (f : α → Option β)
    (l : List α) :
    (l.filterMap f).length = l.countP (fun x => (f x).isSome) := by
  induction l with
  | nil => rfl
  | cons x xs ih =>
    simp only [List.filterMap_cons, List.countP_cons]
    cases h : f x <;> simp [h, ih]

/-- C4: during ingest, an entry with a missing color whose start date is
the documented anomaly date (2022-12-28) is stored in both collections
with value blue; any other entry with a missing color is dropped from
both; and both collection lengths equal exactly the number of entries
that were not dropped. -/
theorem update_tempo_days_drop_and_repair (entries : List RawEntry) :
    (ingest entries).1.length
      = entries.countP (fun e => (entryValue e).isSome) ∧
    (ingest entries).2.length
      = entries.countP (fun e => (entryValue e).isSome) ∧
    (∀ e : RawEntry, e.value = none →
      (e.start_date.day = daysFromCivil ⟨2022, 12, 28⟩ →
        parseDateDay e = some ⟨e.start_date.day, e.end_date.day,
          TempoColor.blue, e.updated_date⟩ ∧
        parseTimeDay e = some ⟨adjust_tempo_time e.start_date,
          adjust_tempo_time e.end_date, TempoColor.blue,
          e.updated_date⟩) ∧
      (e.start_date.day ≠ daysFromCivil ⟨2022, 12, 28⟩ →
        parseDateDay e = none ∧ parseTimeDay e = none)) := by
  refine ⟨?_, ?_, ?_⟩
  · rw [show (ingest entries).1 = entries.filterMap parseDateDay from rfl,
      length_filterMap_eq_countP]
    simp [parseDateDay, Option.isSome_map]
  · rw [show (ingest entries).2 = entries.filterMap parseTimeDay from rfl,
      length_filterMap_eq_countP]
    simp [parseTimeDay, Option.isSome_map]
  · intro e hv
    constructor
    · intro ha
      unfold parseDateDay parseTimeDay entryValue ANOMALY_DAY
      rw [hv]
      dsimp only
      rw [if_pos ha]
      exact ⟨rfl, rfl⟩
    · intro hna
      unfold parseDateDay parseTimeDay entryValue ANOMALY_DAY
      rw [hv]
      dsimp only
      rw [if_neg hna]
      exact ⟨rfl, rfl⟩

/-- C4 witness: the ingest theorem applied to three concrete entries: the
anomaly-dated entry with a missing value, another entry with a missing
value, and a normal red entry; exactly two are kept. -/
theorem update_tempo_days_drop_and_repair_witness :
    (ingest [⟨⟨19354, 0, by decide⟩, ⟨19355, 0, by decide⟩, none,
        ⟨19353, 600, by decide⟩⟩,
      ⟨⟨20103, 0, by decide⟩, ⟨20104, 0, by decide⟩, none,
        ⟨20102, 600, by decide⟩⟩,
      ⟨⟨20104, 0, by decide⟩, ⟨20105, 0, by decide⟩, some .red,
        ⟨20103, 600, by decide⟩⟩]).1.length = 2 := by
  have h := update_tempo_days_drop_and_repair
    [⟨⟨19354, 0, by decide⟩, ⟨19355, 0, by decide⟩, none,
        ⟨19353, 600, by decide⟩⟩,
      ⟨⟨20103, 0, by decide⟩, ⟨20104, 0, by decide⟩, none,
        ⟨20102, 600, by decide⟩⟩,
      ⟨⟨20104, 0, by decide⟩, ⟨20105, 0, by decide⟩, some .red,
        ⟨20103, 600, by decide⟩⟩]
  have hrepair := (h.2.2 ⟨⟨19354, 0, by decide⟩, ⟨19355, 0, by decide⟩,
    none, ⟨19353, 600, by decide⟩⟩ rfl).1 (by decide)
  rw [h.1]
  decide

/-- C5: within a single fetch call, at most two GET requests are issued
and at most one refresh is performed; the refresh happens exactly when the
first request reports an expired token; in that case exactly two GETs are
issued, a failing retry is reported as failure (never retried further),
and a succeeding retry returns its response. -/
theorem get_tempo_data_retry_once (attempt : Nat → GetOutcome) :
    (get_tempo_data attempt).2.1 ≤ 2 ∧
    (get_tempo_data attempt).2.2 ≤ 1 ∧
    ((get_tempo_data attempt).2.2 = 1 ↔ attempt 0 = .tokenExpired) ∧
    (attempt 0 = .tokenExpired → (get_tempo_data attempt).2.1 = 2) ∧
    (attempt 0 = .tokenExpired → (∀ r, attempt 1 ≠ .resp r) →
      ∃ f, (get_tempo_data attempt).1 = .error f) ∧
    (attempt 0 = .tokenExpired → ∀ r, attempt 1 = .resp r →
      (get_tempo_data attempt).1 = .ok r) := by
  cases h0 : attempt 0 with
  | tokenExpired =>
    cases h1 : attempt 1 with
    | tokenExpired =>
      refine ⟨by simp [get_tempo_data, h0, h1],
        by simp [get_tempo_data, h0, h1],
        by simp [get_tempo_data, h0, h1],
        fun _ => by simp [get_tempo_data, h0, h1],
        fun _ _ => ⟨.tokenStillExpired, by simp [get_tempo_data, h0, h1]⟩,
        fun _ r hr => GetOutcome.noConfusion hr⟩
    | netError =>
      refine ⟨by simp [get_tempo_data, h0, h1],
        by simp [get_tempo_data, h0, h1],
        by simp [get_tempo_data, h0, h1],
        fun _ => by simp [get_tempo_data, h0, h1],
        fun _ _ => ⟨.network, by simp [get_tempo_data, h0, h1]⟩,
        fun _ r hr => GetOutcome.noConfusion hr⟩
    | oauthError =>
      refine ⟨by simp [get_tempo_data, h0, h1],
        by simp [get_tempo_data, h0, h1],
        by simp [get_tempo_data, h0, h1],
        fun _ => by simp [get_tempo_data, h0, h1],
        fun _ _ => ⟨.oauth, by simp [get_tempo_data, h0, h1]⟩,
        fun _ r hr => GetOutcome.noConfusion hr⟩
    | resp r1 =>
      refine ⟨by simp [get_tempo_data, h0, h1],
        by simp [get_tempo_data, h0, h1],
        by simp [get_tempo_data, h0, h1],
        fun _ => by simp [get_tempo_data, h0, h1],
        fun _ hno => absurd rfl (hno r1), fun _ r hr => ?_⟩
      injection hr with h2
      subst h2
      simp [get_tempo_data, h0, h1]
  | netError =>
    refine ⟨by simp [get_tempo_data, h0], by simp [get_tempo_data, h0],
      by simp [get_tempo_data, h0], fun h => GetOutcome.noConfusion h,
      fun h _ => GetOutcome.noConfusion h,
      fun h _ _ => GetOutcome.noConfusion h⟩
  | oauthError =>
    refine ⟨by simp [get_tempo_data, h0], by simp [get_tempo_data, h0],
      by simp [get_tempo_data, h0], fun h => GetOutcome.noConfusion h,
      fun h _ => GetOutcome.noConfusion h,
      fun h _ _ => GetOutcome.noConfusion h⟩
  | resp r0 =>
    refine ⟨by simp [get_tempo_data, h0], by simp [get_tempo_data, h0],
      by simp [get_tempo_data, h0], fun h => GetOutcome.noConfusion h,
      fun h _ => GetOutcome.noConfusion h,
      fun h _ _ => GetOutcome.noConfusion h⟩

/-- C5 witness: the retry theorem applied to a concrete call whose first
GET reports an expired token and whose second succeeds: exactly two GETs
are issued. -/
theorem get_tempo_data_retry_once_witness :
    (get_tempo_data (fun n => if n = 0 then .tokenExpired
      else .resp ⟨200, "", none, none⟩)).2.1 = 2 :=
  (get_tempo_data_retry_once _).2.2.2.1 rfl

/-- C6: every single-cycle failure: transport error, authentication
error, an expired token that is still expired after the one retry, a
classified non-200 HTTP status, or malformed JSON on a 200 response, is
caught locally and signalled as no new data, leaving the known data end
and both stored collections unchanged. -/
theorem update_tempo_days_failure_no_change (s : WorkerState)
    (attempt : Nat → GetOutcome) :
    ((get_tempo_data attempt).1 = .error .network →
      update_tempo_days s attempt = (s, none)) ∧
    ((get_tempo_data attempt).1 = .error .oauth →
      update_tempo_days s attempt = (s, none)) ∧
    ((get_tempo_data attempt).1 = .error .tokenStillExpired →
      update_tempo_days s attempt = (s, none)) ∧
    (∀ r, (get_tempo_data attempt).1 = .ok r → r.status ≠ 200 →
      update_tempo_days s attempt = (s, none)) ∧
    (∀ r, (get_tempo_data attempt).1 = .ok r → r.payload = none →
      update_tempo_days s attempt = (s, none)) := by
  refine ⟨?_, ?_, ?_, ?_, ?_⟩
  · intro h
    unfold update_tempo_days
    rw [h]
  · intro h
    unfold update_tempo_days
    rw [h]
  · intro h
    unfold update_tempo_days
    rw [h]
  · intro r h hne
    unfold update_tempo_days
    rw [h]
    dsimp only
    cases hcl : handle_api_errors r with
    | error e => rfl
    | ok u =>
      cases u
      exact absurd ((handle_api_errors_ok_iff r).mp hcl) hne
  · intro r h hp
    unfold update_tempo_days
    rw [h]
    dsimp only
    cases hcl : handle_api_errors r with
    | error e => rfl
    | ok u =>
      cases u
      dsimp only
      rw [hp]

/-- C6 witness: the no-change theorem applied to a concrete state and a
cycle whose GET fails at the transport level. -/
theorem update_tempo_days_failure_no_change_witness :
    update_tempo_days ⟨none, [], []⟩ (fun _ => GetOutcome.netError)
      = (⟨none, [], []⟩, none) :=
  (update_tempo_days_failure_no_change ⟨none, [], []⟩
    (fun _ => GetOutcome.netError)).1 rfl

